import Mathlib

/-!
Verification of `cloud_monitoring_metrics_fetch` (`src/main.go`) against its
specification.

The program fetches time series from a monitoring backend, flattens each
series (labels + typed points, including distribution histograms) into
JSON-friendly records, and prints one JSON array per series to stdout.

Shallow embedding notes:
* `float64` values are only ever copied by the program, never computed with,
  so a double is modelled by its 64-bit pattern (`Float64`, a wrapped `Nat`);
  copying preserves it exactly, which is what the spec's "no rounding" means.
* `int64` / `int32` values are likewise only copied, so they are modelled as
  `Int` (no arithmetic is performed, hence no overflow to model).
* `time.Time` is modelled as whole seconds plus a sub-second part
  (`GoTime`); `Unix()` returns the seconds and discards the sub-second part.
* Go's `encoding/json` output is modelled as a JSON syntax tree (`Json`);
  a nil pointer field without `omitempty` marshals to an explicit `null`
  member, and struct members appear in declaration order.
* The fetcher is the external collaborator: its yield is modelled as the
  list of `TimeSeries` values the iterator would produce.  Stdout is
  modelled as the list of JSON documents printed (one line each by
  `fmt.Println`), paired with the error that aborted the run, if any.
-/

namespace CMFetch

/-- Bit pattern of a Go `float64`; the program only copies doubles. -/
structure Float64 where
  bits : Nat
deriving DecidableEq, Repr

/-- Go `time.Time`: whole seconds since epoch plus sub-second nanoseconds.
`unix` models `time.Time.Unix()`, which discards the sub-second part. -/
structure GoTime where
  sec : Int
  nsec : Nat
deriving DecidableEq, Repr

def GoTime.unix (t : GoTime) : Int := t.sec

/-- Go `time.Time.Add` restricted to a whole-second duration (the program
only ever adds `-10 * time.Minute`, i.e. exactly -600 s). -/
def GoTime.addSeconds (t : GoTime) (d : Int) : GoTime :=
  { sec := t.sec + d, nsec := t.nsec }

/-- Output struct `KeyValue` of main.go: one label tagged with its origin. -/
structure KeyValue where
  type : String
  key : String
  value : String
deriving DecidableEq, Repr

/-- Output struct `Range` of main.go. -/
structure Range where
  min : Float64
  max : Float64
deriving DecidableEq, Repr

/-- Output struct `LinearBuckets` of main.go. -/
structure LinearBuckets where
  numFiniteBuckets : Int
  width : Float64
  offset : Float64
deriving DecidableEq, Repr

/-- Output struct `ExponentialBuckets` of main.go. -/
structure ExponentialBuckets where
  numFiniteBuckets : Int
  growthFactor : Float64
  scale : Float64
deriving DecidableEq, Repr

/-- Output struct `ExplicitBuckets` of main.go. -/
structure ExplicitBuckets where
  bounds : List Float64
deriving DecidableEq, Repr

/-- Output struct `OptionsUnion` of main.go: three nullable layout fields. -/
structure OptionsUnion where
  linearBuckets : Option LinearBuckets
  exponentialBuckets : Option ExponentialBuckets
  explicitBuckets : Option ExplicitBuckets
deriving DecidableEq, Repr

/-- Output struct `BucketOptions` of main.go. -/
structure BucketOptions where
  options : Option OptionsUnion
deriving DecidableEq, Repr

/-- Output struct `DistributionValue` of main.go. -/
structure DistributionValue where
  count : Int
  mean : Float64
  sumOfSquaredDeviation : Float64
  range : Option Range
  bucketOptions : Option BucketOptions
  bucketCounts : List Int
deriving DecidableEq, Repr

/-- Output struct `Point` of main.go: timestamp, shared labels, and five
nullable value alternatives. -/
structure Point where
  timestamp : GoTime
  labels : List KeyValue
  boolValue : Option Bool
  int64Value : Option Int
  doubleValue : Option Float64
  stringValue : Option String
  distributionValue : Option DistributionValue
deriving DecidableEq, Repr

/-- Source `distribution.Distribution.Range` message (present or nil). -/
structure SrcRange where
  min : Float64
  max : Float64
deriving DecidableEq, Repr

/-- Source `Distribution_BucketOptions` oneof: `unset` is a present
`BucketOptions` message whose oneof carries none of the three layouts
(the Go type switch on `bo.GetOptions()` then matches no case). -/
inductive SrcBucketOptions where
  | unset
  | linear (numFiniteBuckets : Int) (width offset : Float64)
  | exponential (numFiniteBuckets : Int) (growthFactor scale : Float64)
  | explicitBounds (bounds : List Float64)
deriving DecidableEq, Repr

/-- Source `distribution.Distribution` message, the fields main.go reads. -/
structure SrcDistribution where
  count : Int
  mean : Float64
  sumOfSquaredDeviation : Float64
  range : Option SrcRange
  bucketOptions : Option SrcBucketOptions
  bucketCounts : List Int
deriving DecidableEq, Repr

/-- Source `monitoringpb.TypedValue` oneof.  `unknown tag` stands for a
value whose dynamic kind matches none of the five cases of the Go type
switch; `tag` is the identifier `%s` renders in the error message. -/
inductive TypedValue where
  | boolValue (b : Bool)
  | int64Value (i : Int)
  | doubleValue (d : Float64)
  | stringValue (s : String)
  | distributionValue (dv : SrcDistribution)
  | unknown (tag : String)
deriving DecidableEq, Repr

/-- True on the five kinds the Go type switch handles. -/
def TypedValue.isKnown : TypedValue → Bool
  | .unknown _ => false
  | _ => true

/-- Source `monitoringpb.Point`: interval start time and typed value. -/
structure SrcPoint where
  intervalStart : GoTime
  value : TypedValue
deriving DecidableEq, Repr

/-- Source `monitoringpb.TimeSeries` as consumed by main.go: the resource
label map, the metric label map, and the ordered point list.  A Go map is
embedded as the list of its entries in iteration order (each entry exactly
once; the order itself is unspecified by Go). -/
structure TimeSeries where
  resourceLabels : List (String × String)
  metricLabels : List (String × String)
  points : List SrcPoint
deriving DecidableEq, Repr

/-- Request struct built in `readAndPrintTimeSeriesFields` (main.go lines
96-108); interval endpoints keep only whole seconds (`Unix()`). -/
structure ListTimeSeriesRequest where
  name : String
  filter : String
  intervalStartSeconds : Int
  intervalEndSeconds : Int
  fullView : Bool
deriving DecidableEq, Repr

/-- Embedding of main.go `convertKeyValuePairs`: tag every entry of a label
map with its origin type. -/
def convertKeyValuePairs (labels : List (String × String)) (t : String) : List KeyValue :=
  labels.map (fun kv => { type := t, key := kv.1, value := kv.2 })

/-- Embedding of main.go lines 120-122: the shared label list of a series,
resource labels first, then metric labels. -/
def seriesLabels (ts : TimeSeries) : List KeyValue :=
  convertKeyValuePairs ts.resourceLabels "resource"
    ++ convertKeyValuePairs ts.metricLabels "metric"

/-- Embedding of the `switch o := bo.GetOptions()` block (main.go lines
152-175): a fresh zero `OptionsUnion` gets at most one layout filled in. -/
def convertBucketOptions (bo : SrcBucketOptions) : OptionsUnion :=
  match bo with
  | .unset =>
      { linearBuckets := none, exponentialBuckets := none, explicitBuckets := none }
  | .linear n w o =>
      { linearBuckets := some { numFiniteBuckets := n, width := w, offset := o }
        exponentialBuckets := none
        explicitBuckets := none }
  | .exponential n g s =>
      { linearBuckets := none
        exponentialBuckets := some { numFiniteBuckets := n, growthFactor := g, scale := s }
        explicitBuckets := none }
  | .explicitBounds b =>
      { linearBuckets := none
        exponentialBuckets := none
        explicitBuckets := some { bounds := b } }

/-- Embedding of the distribution branch of the value switch (main.go lines
139-176): copy the summary statistics, the optional range, the optional
bucket options (the union always wrapped, `Options: &ou`), and the bucket
counts verbatim. -/
def convertDistribution (dv : SrcDistribution) : DistributionValue :=
  { count := dv.count
    mean := dv.mean
    sumOfSquaredDeviation := dv.sumOfSquaredDeviation
    range := dv.range.map (fun r => { min := r.min, max := r.max })
    bucketOptions := dv.bucketOptions.map
      (fun bo => { options := some (convertBucketOptions bo) })
    bucketCounts := dv.bucketCounts }

/-- Embedding of the per-point body of the loop (main.go lines 126-179):
build a `Point` with the shared labels and the interval start, then fill
exactly the field matching the value's kind; an unrecognized kind returns
the error of line 178. -/
def convertPoint (labels : List KeyValue) (p : SrcPoint) : Except String Point :=
  let base : Point :=
    { timestamp := p.intervalStart
      labels := labels
      boolValue := none
      int64Value := none
      doubleValue := none
      stringValue := none
      distributionValue := none }
  match p.value with
  | .boolValue b => .ok { base with boolValue := some b }
  | .int64Value i => .ok { base with int64Value := some i }
  | .doubleValue d => .ok { base with doubleValue := some d }
  | .stringValue s => .ok { base with stringValue := some s }
  | .distributionValue dv =>
      .ok { base with distributionValue := some (convertDistribution dv) }
  | .unknown tag => .error ("Not supported metric type: " ++ tag)

/-- Embedding of the points loop (main.go lines 124-181): convert the
points in source order, aborting the whole routine on the first error. -/
def convertPoints (labels : List KeyValue) : List SrcPoint → Except String (List Point)
  | [] => .ok []
  | p :: ps =>
      match convertPoint labels p with
      | .error e => .error e
      | .ok pt =>
          match convertPoints labels ps with
          | .error e => .error e
          | .ok pts => .ok (pt :: pts)

/-- JSON value tree, the shape `encoding/json` produces for the output
structs.  `obj` keeps members in struct declaration order; `time` stands
for the RFC 3339 string `time.Time` marshals to; `float` carries the
untouched bit pattern of a double. -/
inductive Json where
  | null
  | bool (b : Bool)
  | int (i : Int)
  | float (f : Float64)
  | str (s : String)
  | time (t : GoTime)
  | arr (xs : List Json)
  | obj (fields : List (String × Json))

/-- Member lookup in a serialized object; `none` when the member is absent
(or the value is not an object). -/
def Json.lookupField : Json → String → Option Json
  | .obj fields, k => fields.lookup k
  | _, _ => none

/-- Marshalling of a nullable struct field without `omitempty`: a nil
pointer becomes an explicit `null` member. -/
def marshalOpt {α : Type} (f : α → Json) : Option α → Json
  | none => .null
  | some x => f x

def marshalKeyValue (kv : KeyValue) : Json :=
  .obj [("type", .str kv.type), ("key", .str kv.key), ("value", .str kv.value)]

def marshalRange (r : Range) : Json :=
  .obj [("min", .float r.min), ("max", .float r.max)]

def marshalLinearBuckets (lb : LinearBuckets) : Json :=
  .obj [("num_finite_buckets", .int lb.numFiniteBuckets),
        ("width", .float lb.width),
        ("offset", .float lb.offset)]

def marshalExponentialBuckets (eb : ExponentialBuckets) : Json :=
  .obj [("num_finite_buckets", .int eb.numFiniteBuckets),
        ("growth_factor", .float eb.growthFactor),
        ("scale", .float eb.scale)]

def marshalExplicitBuckets (eb : ExplicitBuckets) : Json :=
  .obj [("bounds", .arr (eb.bounds.map .float))]

def marshalOptionsUnion (ou : OptionsUnion) : Json :=
  .obj [("linear_buckets", marshalOpt marshalLinearBuckets ou.linearBuckets),
        ("exponential_buckets", marshalOpt marshalExponentialBuckets ou.exponentialBuckets),
        ("explicit_buckets", marshalOpt marshalExplicitBuckets ou.explicitBuckets)]

def marshalBucketOptions (bo : BucketOptions) : Json :=
  .obj [("options", marshalOpt marshalOptionsUnion bo.options)]

def marshalDistributionValue (dv : DistributionValue) : Json :=
  .obj [("count", .int dv.count),
        ("mean", .float dv.mean),
        ("sum_of_squared_deviation", .float dv.sumOfSquaredDeviation),
        ("range", marshalOpt marshalRange dv.range),
        ("bucket_options", marshalOpt marshalBucketOptions dv.bucketOptions),
        ("bucket_counts", .arr (dv.bucketCounts.map .int))]

/-- Marshalling of the output `Point` struct: all seven members are always
emitted (no `omitempty` tag on any field), nil alternatives as `null`. -/
def marshalPoint (pt : Point) : Json :=
  .obj [("timestamp", .time pt.timestamp),
        ("labels", .arr (pt.labels.map marshalKeyValue)),
        ("bool_value", marshalOpt .bool pt.boolValue),
        ("int64_value", marshalOpt .int pt.int64Value),
        ("double_value", marshalOpt .float pt.doubleValue),
        ("string_value", marshalOpt .str pt.stringValue),
        ("distribution_value", marshalOpt marshalDistributionValue pt.distributionValue)]

/-- One iteration of the series loop (main.go lines 120-187): build the
shared labels, convert the points, marshal the point list to one JSON
document. -/
def emitSeries (ts : TimeSeries) : Except String Json :=
  match convertPoints (seriesLabels ts) ts.points with
  | .error e => .error e
  | .ok pts => .ok (.arr (pts.map marshalPoint))

/-- Embedding of the whole iterator loop of `readAndPrintTimeSeriesFields`
over the series the fetcher yields: returns the JSON documents printed to
stdout (one line each) and the error that aborted the run, if any.
Lines printed before a failing series remain. -/
def readAndPrintTimeSeriesFields : List TimeSeries → List Json × Option String
  | [] => ([], none)
  | ts :: rest =>
      match emitSeries ts with
      | .error e => ([], some e)
      | .ok line =>
          let out := readAndPrintTimeSeriesFields rest
          (line :: out.1, out.2)

/-- Embedding of the request construction (main.go lines 96-108). -/
def buildListTimeSeriesRequest (projectID metricType resourceType : String)
    (startTime endTime : GoTime) : ListTimeSeriesRequest :=
  { name := "projects/" ++ projectID
    filter := "metric.type=\"" ++ metricType ++ "\" resource.type=\"" ++ resourceType ++ "\""
    intervalStartSeconds := startTime.unix
    intervalEndSeconds := endTime.unix
    fullView := true }

/-- Default of the `start` flag (main.go line 197):
`time.Now().Add(time.Duration(-10) * time.Minute).Unix()`, with `now1` the
clock reading taken for this flag. -/
def defaultStart (now1 : GoTime) : Int :=
  (now1.addSeconds (-600)).unix

/-- Default of the `end` flag (main.go line 198): `time.Now().Unix()`,
with `now2` the (separate, later) clock reading taken for this flag. -/
def defaultEnd (now2 : GoTime) : Int :=
  now2.unix

/-- Number of populated value alternatives of an output point. -/
def Point.populatedCount (pt : Point) : Nat :=
  (if pt.boolValue.isSome then 1 else 0)
    + (if pt.int64Value.isSome then 1 else 0)
    + (if pt.doubleValue.isSome then 1 else 0)
    + (if pt.stringValue.isSome then 1 else 0)
    + (if pt.distributionValue.isSome then 1 else 0)

/-- Number of populated layout alternatives of an options union. -/
def OptionsUnion.populatedLayouts (ou : OptionsUnion) : Nat :=
  (if ou.linearBuckets.isSome then 1 else 0)
    + (if ou.exponentialBuckets.isSome then 1 else 0)
    + (if ou.explicitBuckets.isSome then 1 else 0)

/-- The populated alternative of an output point matches the source value's
tag and carries the source value unchanged. -/
def valueMatches (pt : Point) : TypedValue → Prop
  | .boolValue b => pt.boolValue = some b
  | .int64Value i => pt.int64Value = some i
  | .doubleValue d => pt.doubleValue = some d
  | .stringValue s => pt.stringValue = some s
  | .distributionValue dv => pt.distributionValue = some (convertDistribution dv)
  | .unknown _ => False

/-- Specification-side description of a correct layout copy: the output
union carries exactly the source's declared layout with its fields
verbatim, and the other two layout fields (all three for an unset oneof)
are absent. -/
def layoutMatches : SrcBucketOptions → OptionsUnion → Prop
  | .unset, ou =>
      ou.linearBuckets = none ∧ ou.exponentialBuckets = none
        ∧ ou.explicitBuckets = none
  | .linear n w o, ou =>
      ou.linearBuckets = some { numFiniteBuckets := n, width := w, offset := o }
        ∧ ou.exponentialBuckets = none ∧ ou.explicitBuckets = none
  | .exponential n g s, ou =>
      ou.linearBuckets = none
        ∧ ou.exponentialBuckets = some { numFiniteBuckets := n, growthFactor := g, scale := s }
        ∧ ou.explicitBuckets = none
  | .explicitBounds b, ou =>
      ou.linearBuckets = none ∧ ou.exponentialBuckets = none
        ∧ ou.explicitBuckets = some { bounds := b }

/-- Specification-side description of the one stdout line a series yields:
the JSON array of its flattened points (the `.null` branch is unreachable
when every point has a known kind). -/
def emittedLine (ts : TimeSeries) : Json :=
  match convertPoints (seriesLabels ts) ts.points with
  | .ok pts => .arr (pts.map marshalPoint)
  | .error _ => .null

/-- Concrete source point used to exhibit the serialized form of an
unpopulated alternative. -/
def exSrcPoint : SrcPoint :=
  { intervalStart := { sec := 0, nsec := 0 }, value := .boolValue true }

/-- Flattened form of `exSrcPoint`: only the bool alternative populated. -/
def exPoint : Point :=
  { timestamp := { sec := 0, nsec := 0 }
    labels := []
    boolValue := some true
    int64Value := none
    doubleValue := none
    stringValue := none
    distributionValue := none }

/-- Concrete series used as witness input: one resource label, one metric
label, one boolean point. -/
def exSeries : TimeSeries where
  resourceLabels := [("zone", "z")]
  metricLabels := [("instance", "i")]
  points := [{ intervalStart := { sec := 1, nsec := 0 }, value := .boolValue false }]

/-- Flattened point list of `exSeries`. -/
def exSeriesOut : List Point :=
  [{ timestamp := { sec := 1, nsec := 0 },
     labels := [{ type := "resource", key := "zone", value := "z" },
                { type := "metric", key := "instance", value := "i" }],
     boolValue := some false, int64Value := none, doubleValue := none,
     stringValue := none, distributionValue := none }]

/-- Concrete distribution used as witness input: explicit bucket layout. -/
def exDist : SrcDistribution where
  count := 3
  mean := { bits := 5 }
  sumOfSquaredDeviation := { bits := 7 }
  range := none
  bucketOptions := some (.explicitBounds [{ bits := 0 }, { bits := 1 }])
  bucketCounts := [1, 2, 0]

/-- Concrete two-point source list and its flattened form, used as witness
input for the order-preservation theorem. -/
def exPts : List SrcPoint :=
  [{ intervalStart := { sec := 4, nsec := 0 }, value := .int64Value 9 },
   { intervalStart := { sec := 6, nsec := 0 }, value := .boolValue true }]

/-- Flattened form of `exPts` under an empty label list. -/
def exPtsOut : List Point :=
  [{ timestamp := { sec := 4, nsec := 0 }, labels := [], boolValue := none,
     int64Value := some 9, doubleValue := none, stringValue := none,
     distributionValue := none },
   { timestamp := { sec := 6, nsec := 0 }, labels := [], boolValue := some true,
     int64Value := none, doubleValue := none, stringValue := none,
     distributionValue := none }]

/-- Concrete series containing a point of unrecognized kind after one good
point, used as witness input for the abort theorem. -/
def exBadSeries : TimeSeries where
  resourceLabels := []
  metricLabels := []
  points := [{ intervalStart := { sec := 2, nsec := 0 }, value := .int64Value 1 },
             { intervalStart := { sec := 3, nsec := 0 }, value := .unknown "badkind" }]

/-- Concrete series with zero points, used as witness input for the
one-line-per-series theorem. -/
def exEmptySeries : TimeSeries where
  resourceLabels := [("zone", "z")]
  metricLabels := []
  points := []

/-- Labels of a successfully converted point are exactly the shared list
passed in, and its timestamp is the source interval start. -/
theorem convertPoint_ok_fields (labels : List KeyValue) (p : SrcPoint) (pt : Point)
    (h : convertPoint labels p = .ok pt) :
    pt.labels = labels ∧ pt.timestamp = p.intervalStart := by
  rcases p with ⟨t, v⟩
  cases v with
  | boolValue b => simp [convertPoint] at h; subst h; exact ⟨rfl, rfl⟩
  | int64Value i => simp [convertPoint] at h; subst h; exact ⟨rfl, rfl⟩
  | doubleValue d => simp [convertPoint] at h; subst h; exact ⟨rfl, rfl⟩
  | stringValue s => simp [convertPoint] at h; subst h; exact ⟨rfl, rfl⟩
  | distributionValue dv => simp [convertPoint] at h; subst h; exact ⟨rfl, rfl⟩
  | unknown tag => simp [convertPoint] at h

/-- A point of known kind always converts successfully. -/
theorem convertPoint_ok_of_known (labels : List KeyValue) (p : SrcPoint)
    (h : p.value.isKnown = true) : ∃ pt, convertPoint labels p = .ok pt := by
  rcases p with ⟨t, v⟩
  cases v with
  | boolValue b => exact ⟨_, rfl⟩
  | int64Value i => exact ⟨_, rfl⟩
  | doubleValue d => exact ⟨_, rfl⟩
  | stringValue s => exact ⟨_, rfl⟩
  | distributionValue dv => exact ⟨_, rfl⟩
  | unknown tag => simp [TypedValue.isKnown] at h

/-- A list of points of known kinds always converts successfully. -/
theorem convertPoints_ok_of_known (labels : List KeyValue) (pts : List SrcPoint)
    (h : ∀ p ∈ pts, p.value.isKnown = true) :
    ∃ out, convertPoints labels pts = .ok out := by
  induction pts with
  | nil => exact ⟨[], rfl⟩
  | cons p ps ih =>
      obtain ⟨pt, hpt⟩ := convertPoint_ok_of_known labels p (h p (by simp))
      obtain ⟨out, hout⟩ := ih (fun q hq => h q (by simp [hq]))
      exact ⟨pt :: out, by simp [convertPoints, hpt, hout]⟩

/-- Every point of a successfully converted list carries exactly the label
list that was passed in. -/
theorem convertPoints_labels_shared (labels : List KeyValue) (pts : List SrcPoint)
    (out : List Point) (h : convertPoints labels pts = .ok out) :
    ∀ pt ∈ out, pt.labels = labels := by
  induction pts generalizing out with
  | nil =>
      simp [convertPoints] at h
      subst h; simp
  | cons p ps ih =>
      simp only [convertPoints] at h
      cases hp : convertPoint labels p with
      | error e => rw [hp] at h; simp at h
      | ok pt0 =>
          rw [hp] at h
          cases hps : convertPoints labels ps with
          | error e => rw [hps] at h; simp at h
          | ok rest =>
              rw [hps] at h
              simp only [Except.ok.injEq] at h
              subst h
              intro pt hpt
              rcases List.mem_cons.mp hpt with rfl | hm
              · exact (convertPoint_ok_fields labels p pt hp).1
              · exact ih rest hps pt hm

/-- C1: for every point whose source value is one of the five known kinds,
the flattener succeeds and populates exactly one of the five optional value
fields of the output `Point` — the one matching the source tag — and the
populated value equals the source value exactly (no coercion or rounding
for int64/double, which are copied bit-for-bit). -/
theorem convertPoint_known_kind (labels : List KeyValue) (p : SrcPoint)
    (h : p.value.isKnown = true) :
    ∃ pt, convertPoint labels p = .ok pt
      ∧ pt.populatedCount = 1
      ∧ valueMatches pt p.value := by
  rcases p with ⟨t, v⟩
  cases v with
  | boolValue b => exact ⟨_, rfl, rfl, rfl⟩
  | int64Value i => exact ⟨_, rfl, rfl, rfl⟩
  | doubleValue d => exact ⟨_, rfl, rfl, rfl⟩
  | stringValue s => exact ⟨_, rfl, rfl, rfl⟩
  | distributionValue dv => exact ⟨_, rfl, rfl, rfl⟩
  | unknown tag => simp [TypedValue.isKnown] at h

/-- Witness for C1 at a concrete known-kind point. -/
theorem convertPoint_known_kind_witness :
    ∃ pt, convertPoint []
        { intervalStart := { sec := 0, nsec := 0 }, value := .int64Value 42 } = .ok pt
      ∧ pt.populatedCount = 1
      ∧ valueMatches pt (.int64Value 42) :=
  convertPoint_known_kind []
    { intervalStart := { sec := 0, nsec := 0 }, value := .int64Value 42 } rfl

/-- C7: the request builder produces exactly the filter string
`metric.type="<metricType>" resource.type="<resourceType>"`, the project
resource name, and interval endpoints equal to the given instants in whole
seconds with the sub-second part discarded; it is a total pure function
(defined for every input), so it has no failure mode of its own. -/
theorem buildListTimeSeriesRequest_spec (projectID metricType resourceType : String)
    (s e : GoTime) :
    buildListTimeSeriesRequest projectID metricType resourceType s e =
      { name := "projects/" ++ projectID
        filter := "metric.type=\"" ++ metricType ++ "\" resource.type=\""
                    ++ resourceType ++ "\""
        intervalStartSeconds := s.sec
        intervalEndSeconds := e.sec
        fullView := true } := rfl

/-- C9: with no flags supplied, the defaults are well-defined for every
clock reading and, when the two clock readings of main.go lines 197-198
coincide, the default start is exactly 600 seconds (10 minutes) before the
default end, which is the invocation instant in unix seconds. -/
theorem default_window (now1 now2 : GoTime) (h : now1 = now2) :
    defaultStart now1 = now2.unix - 600
      ∧ defaultEnd now2 = now2.unix
      ∧ defaultEnd now2 - defaultStart now1 = 600 := by
  subst h
  refine ⟨?_, rfl, ?_⟩ <;>
    · simp only [defaultStart, defaultEnd, GoTime.addSeconds, GoTime.unix]
      omega

/-- Witness for C9 at a concrete clock reading. -/
theorem default_window_witness :
    defaultStart { sec := 1000, nsec := 5 } =
        GoTime.unix { sec := 1000, nsec := 5 } - 600
      ∧ defaultEnd { sec := 1000, nsec := 5 } = GoTime.unix { sec := 1000, nsec := 5 }
      ∧ defaultEnd { sec := 1000, nsec := 5 }
          - defaultStart { sec := 1000, nsec := 5 } = 600 :=
  default_window { sec := 1000, nsec := 5 } { sec := 1000, nsec := 5 } rfl

/-- C10: the merged label list of every series is a block of
resource-tagged entries followed by a block of metric-tagged entries: all
resource labels precede all metric labels. -/
theorem seriesLabels_resource_before_metric (ts : TimeSeries) :
    ∃ r m, seriesLabels ts = r ++ m
      ∧ (∀ kv ∈ r, kv.type = "resource")
      ∧ (∀ kv ∈ m, kv.type = "metric") := by
  refine ⟨convertKeyValuePairs ts.resourceLabels "resource",
          convertKeyValuePairs ts.metricLabels "metric", rfl, ?_, ?_⟩ <;>
    · intro kv hkv
      simp only [convertKeyValuePairs, List.mem_map] at hkv
      obtain ⟨x, _, rfl⟩ := hkv
      rfl

/-- C2: the merged label list of a series has length
`|L_resource| + |L_metric|`, equals (up to order, hence with every entry's
type tag matching the map it came from) the tagged union of the two label
maps, and is computed once per series: every point of the series carries
that same list. -/
theorem merged_labels_spec (ts : TimeSeries) (out : List Point)
    (h : convertPoints (seriesLabels ts) ts.points = .ok out) :
    (seriesLabels ts).length = ts.resourceLabels.length + ts.metricLabels.length
    ∧ (seriesLabels ts).Perm
        (ts.resourceLabels.map (fun kv => { type := "resource", key := kv.1, value := kv.2 })
          ++ ts.metricLabels.map (fun kv => { type := "metric", key := kv.1, value := kv.2 }))
    ∧ ∀ pt ∈ out, pt.labels = seriesLabels ts :=
  ⟨by simp [seriesLabels, convertKeyValuePairs],
   List.Perm.refl _,
   convertPoints_labels_shared (seriesLabels ts) ts.points out h⟩

/-- Witness for C2: a concrete series with one resource label, one metric
label and one point. -/
theorem merged_labels_spec_witness :
    (seriesLabels exSeries).length
        = exSeries.resourceLabels.length + exSeries.metricLabels.length
    ∧ (seriesLabels exSeries).Perm
        (exSeries.resourceLabels.map
            (fun kv => { type := "resource", key := kv.1, value := kv.2 })
          ++ exSeries.metricLabels.map
            (fun kv => { type := "metric", key := kv.1, value := kv.2 }))
    ∧ ∀ pt ∈ exSeriesOut, pt.labels = seriesLabels exSeries :=
  merged_labels_spec exSeries exSeriesOut rfl

/-- C3: the flattener copies `count`, `mean`, `sum_of_squared_deviation`
and the `bucket_counts` sequence of a distribution verbatim (order
preserved), maps an absent source range to an absent output range and a
present one to its verbatim copy, maps absent bucket options to absent
output bucket options, and for present bucket options populates exactly
the layout the source declares — at most one of the three layout fields,
none of them when the source oneof is unset (the output union is still
present). -/
theorem convertDistribution_spec (dv : SrcDistribution) :
    (convertDistribution dv).count = dv.count
    ∧ (convertDistribution dv).mean = dv.mean
    ∧ (convertDistribution dv).sumOfSquaredDeviation = dv.sumOfSquaredDeviation
    ∧ (convertDistribution dv).bucketCounts = dv.bucketCounts
    ∧ ((convertDistribution dv).range =
        match dv.range with
        | none => none
        | some r => some { min := r.min, max := r.max })
    ∧ (dv.bucketOptions = none → (convertDistribution dv).bucketOptions = none)
    ∧ ∀ bo, dv.bucketOptions = some bo →
        (convertDistribution dv).bucketOptions
            = some { options := some (convertBucketOptions bo) }
          ∧ (convertBucketOptions bo).populatedLayouts ≤ 1
          ∧ layoutMatches bo (convertBucketOptions bo) := by
  obtain ⟨c, m, sd, r, bo, bc⟩ := dv
  refine ⟨rfl, rfl, rfl, rfl, ?_, ?_, ?_⟩
  · cases r <;> rfl
  · intro hnone
    simp only at hnone
    subst hnone
    rfl
  · intro b hb
    simp only [Option.some.injEq] at hb
    subst hb
    refine ⟨rfl, ?_, ?_⟩ <;>
      cases b <;>
        simp [convertBucketOptions, OptionsUnion.populatedLayouts, layoutMatches]

/-- Witness for C3 at a concrete distribution with an explicit layout. -/
theorem convertDistribution_spec_witness :
    (convertDistribution exDist).count = exDist.count
    ∧ (convertDistribution exDist).bucketCounts = exDist.bucketCounts
    ∧ ∀ bo, exDist.bucketOptions = some bo →
        layoutMatches bo (convertBucketOptions bo) := by
  have h := convertDistribution_spec exDist
  exact ⟨h.1, h.2.2.2.1, fun bo hbo => (h.2.2.2.2.2.2 bo hbo).2.2⟩

/-- C8: a successfully converted series maps its source points one-to-one
and in order — the output list pairs positionwise with the source list,
each output point being the conversion of the source point at the same
position, with its timestamp taken from that point's interval start. -/
theorem convertPoints_order (labels : List KeyValue) (pts : List SrcPoint)
    (out : List Point) (h : convertPoints labels pts = .ok out) :
    out.length = pts.length
    ∧ List.Forall₂
        (fun p pt => convertPoint labels p = .ok pt ∧ pt.timestamp = p.intervalStart)
        pts out := by
  suffices hfa : List.Forall₂
      (fun p pt => convertPoint labels p = .ok pt ∧ pt.timestamp = p.intervalStart)
      pts out from ⟨hfa.length_eq.symm, hfa⟩
  induction pts generalizing out with
  | nil =>
      simp [convertPoints] at h
      subst h; exact List.Forall₂.nil
  | cons p ps ih =>
      simp only [convertPoints] at h
      cases hp : convertPoint labels p with
      | error e => rw [hp] at h; simp at h
      | ok pt0 =>
          rw [hp] at h
          cases hps : convertPoints labels ps with
          | error e => rw [hps] at h; simp at h
          | ok rest =>
              rw [hps] at h
              simp only [Except.ok.injEq] at h
              subst h
              exact List.Forall₂.cons
                ⟨hp, (convertPoint_ok_fields labels p pt0 hp).2⟩ (ih rest hps)

/-- Witness for C8 at a concrete two-point series. -/
theorem convertPoints_order_witness :
    exPtsOut.length = exPts.length
    ∧ List.Forall₂
        (fun p pt => convertPoint [] p = .ok pt ∧ pt.timestamp = p.intervalStart)
        exPts exPtsOut :=
  convertPoints_order [] exPts exPtsOut rfl

/-- Converting a point list whose first unrecognized-kind point follows
only known-kind points yields exactly the error of main.go line 178. -/
theorem convertPoints_first_unknown (labels : List KeyValue) (good : List SrcPoint)
    (t : GoTime) (tag : String) (more : List SrcPoint)
    (hgood : ∀ p ∈ good, p.value.isKnown = true) :
    convertPoints labels (good ++ { intervalStart := t, value := .unknown tag } :: more)
      = .error ("Not supported metric type: " ++ tag) := by
  induction good with
  | nil => rfl
  | cons p ps ih =>
      obtain ⟨pt, hpt⟩ := convertPoint_ok_of_known labels p (hgood p (by simp))
      have ih' := ih (fun q hq => hgood q (by simp [hq]))
      simp only [List.cons_append, convertPoints, hpt, List.append_eq, ih']

/-- C4: if every series before the bad one converts cleanly and some
series contains a point of unrecognized kind (preceded, within that
series, only by known-kind points), the run aborts with the
"Not supported metric type" error carrying the unrecognized kind's
identifier, no stdout line is produced for the bad series or any later
one, and the lines already printed for the prior series remain, in order,
each being that series' own output. -/
theorem unsupported_kind_aborts (pre rest : List TimeSeries) (bad : TimeSeries)
    (good more : List SrcPoint) (t : GoTime) (tag : String)
    (hbad : bad.points = good ++ { intervalStart := t, value := .unknown tag } :: more)
    (hgood : ∀ p ∈ good, p.value.isKnown = true)
    (hpre : ∀ ts ∈ pre, ∀ p ∈ ts.points, p.value.isKnown = true) :
    ∃ lines,
      readAndPrintTimeSeriesFields (pre ++ bad :: rest)
        = (lines, some ("Not supported metric type: " ++ tag))
      ∧ List.Forall₂ (fun ts line => emitSeries ts = .ok line) pre lines := by
  have hbadE : emitSeries bad = .error ("Not supported metric type: " ++ tag) := by
    unfold emitSeries
    rw [hbad, convertPoints_first_unknown (seriesLabels bad) good t tag more hgood]
  clear hbad hgood
  induction pre with
  | nil =>
      exact ⟨[], by simp [readAndPrintTimeSeriesFields, hbadE], List.Forall₂.nil⟩
  | cons ts pres ih =>
      obtain ⟨out, hout⟩ := convertPoints_ok_of_known (seriesLabels ts) ts.points
        (hpre ts (by simp))
      have hemit : emitSeries ts = .ok (.arr (out.map marshalPoint)) := by
        simp [emitSeries, hout]
      obtain ⟨lines, hrun, hfa⟩ := ih (fun q hq p hp => hpre q (by simp [hq]) p hp)
      refine ⟨.arr (out.map marshalPoint) :: lines, ?_, List.Forall₂.cons hemit hfa⟩
      simp only [List.cons_append, readAndPrintTimeSeriesFields, hemit,
        List.append_eq, hrun]

/-- Witness for C4: one good series, then a series whose second point has
an unrecognized kind, then one more series that is never reached. -/
theorem unsupported_kind_aborts_witness :
    ∃ lines,
      readAndPrintTimeSeriesFields ([exSeries] ++ exBadSeries :: [exSeries])
        = (lines, some ("Not supported metric type: " ++ "badkind"))
      ∧ List.Forall₂ (fun ts line => emitSeries ts = .ok line) [exSeries] lines :=
  unsupported_kind_aborts [exSeries] [exSeries] exBadSeries
    [{ intervalStart := { sec := 2, nsec := 0 }, value := .int64Value 1 }] []
    { sec := 3, nsec := 0 } "badkind" rfl (by decide) (by decide)

/-- C5: when every point of every fetched series has a known kind, the run
succeeds and stdout consists of exactly one JSON array per series, in
fetch order, with no wrapping object and no trailing output; a series with
zero points still yields its own line, the empty array. -/
theorem run_one_line_per_series (ss : List TimeSeries)
    (h : ∀ ts ∈ ss, ∀ p ∈ ts.points, p.value.isKnown = true) :
    readAndPrintTimeSeriesFields ss = (ss.map emittedLine, none)
    ∧ ∀ ts ∈ ss, ts.points = [] → emittedLine ts = .arr [] := by
  constructor
  · induction ss with
    | nil => rfl
    | cons ts rest ih =>
        obtain ⟨out, hout⟩ := convertPoints_ok_of_known (seriesLabels ts) ts.points
          (h ts (by simp))
        have hemit : emitSeries ts = .ok (emittedLine ts) := by
          simp [emitSeries, emittedLine, hout]
        have ih' := ih (fun q hq p hp => h q (by simp [hq]) p hp)
        simp only [readAndPrintTimeSeriesFields, hemit, List.map_cons, ih']
  · intro ts _ hpts
    simp [emittedLine, hpts, convertPoints]

/-- Witness for C5: a one-point series followed by a zero-point series. -/
theorem run_one_line_per_series_witness :
    readAndPrintTimeSeriesFields [exSeries, exEmptySeries]
        = ([exSeries, exEmptySeries].map emittedLine, none)
    ∧ ∀ ts ∈ [exSeries, exEmptySeries], ts.points = [] → emittedLine ts = .arr [] :=
  run_one_line_per_series [exSeries, exEmptySeries] (by decide)

/-- C6 counterexample: the claim that every unpopulated value alternative
is absent from the serialized JSON form is false — for a concrete emitted
point carrying a bool value, the serialized object contains the member
"int64_value" explicitly, bound to `null` (Go `encoding/json` emits nil
pointer fields without `omitempty` as explicit nulls). -/
theorem marshal_null_member_counterexample :
    convertPoint [] exSrcPoint = .ok exPoint
    ∧ exPoint.int64Value = none
    ∧ (marshalPoint exPoint).lookupField "int64_value" = some Json.null :=
  ⟨rfl, rfl, rfl⟩

/-- C6 amended: every one of the five value alternatives is always present
as a member of the serialized Point object — an unpopulated alternative is
serialized as an explicit `null`, a populated one as its non-null encoding
— so the serialization distinguishes the populated alternative by
nullness, not by member absence. -/
theorem marshalPoint_value_members (pt : Point) :
    (marshalPoint pt).lookupField "bool_value" = some (marshalOpt .bool pt.boolValue)
    ∧ (marshalPoint pt).lookupField "int64_value" = some (marshalOpt .int pt.int64Value)
    ∧ (marshalPoint pt).lookupField "double_value" = some (marshalOpt .float pt.doubleValue)
    ∧ (marshalPoint pt).lookupField "string_value" = some (marshalOpt .str pt.stringValue)
    ∧ (marshalPoint pt).lookupField "distribution_value"
        = some (marshalOpt marshalDistributionValue pt.distributionValue)
    ∧ ((marshalPoint pt).lookupField "bool_value" = some Json.null ↔ pt.boolValue = none)
    ∧ ((marshalPoint pt).lookupField "int64_value" = some Json.null ↔ pt.int64Value = none)
    ∧ ((marshalPoint pt).lookupField "double_value" = some Json.null ↔ pt.doubleValue = none)
    ∧ ((marshalPoint pt).lookupField "string_value" = some Json.null ↔ pt.stringValue = none)
    ∧ ((marshalPoint pt).lookupField "distribution_value" = some Json.null
        ↔ pt.distributionValue = none) := by
  obtain ⟨t, ls, ob, oi, od, os, odv⟩ := pt
  refine ⟨rfl, rfl, rfl, rfl, rfl, ?_, ?_, ?_, ?_, ?_⟩
  · cases ob <;> simp [marshalPoint, Json.lookupField, marshalOpt, List.lookup]
  · cases oi <;> simp [marshalPoint, Json.lookupField, marshalOpt, List.lookup]
  · cases od <;> simp [marshalPoint, Json.lookupField, marshalOpt, List.lookup]
  · cases os <;> simp [marshalPoint, Json.lookupField, marshalOpt, List.lookup]
  · cases odv <;>
      simp [marshalPoint, Json.lookupField, marshalOpt, List.lookup,
        marshalDistributionValue]

end CMFetch
